import Mathlib

/-!
Verification of the core logic of the code-study-sync browser extension:
the GitHub device-authorization flow (session storage, single-flight login,
token polling), the commit publisher, the submission watcher's duplicate
suppression, and the message-dispatch surface.

The definitions below are shallow embeddings of the TypeScript sources:

* `packages/storage/lib/impl/githubStorage.ts` — device-code session
  storage (`isActive`, `setWithExpiration`), repo config (`updatePath`),
  and the content-script watcher (`setupPageMonitoring`,
  `saveSolutionToGitHub`).
* `chrome-extension/src/background/github-auth.ts` — `startDeviceFlow`,
  `pollForAccessToken`, `validateGithubToken`, `isAuthenticated`.
* `chrome-extension/src/background/index.ts` — the message handlers.
* `chrome-extension/src/background/github-api.ts` — `commitSolutionToGithub`.

Time is modelled as a `Nat` millisecond timestamp passed explicitly where
the source calls `Date.now()`.  Network traffic is modelled by oracle
arguments describing the response each `fetch` would produce; a thrown
(transport-level) failure is a distinguished constructor.  JavaScript
truthiness of optional / string fields is modelled explicitly.
-/

namespace CodeStudySync

/-- The `DeviceCodeInfo` record of `githubStorage.ts`: a stored device-flow
session.  `expires_at` is optional there (calculated after the wire data
arrives), hence `Option Nat`. -/
structure DeviceCodeInfo where
  device_code : String
  user_code : String
  verification_uri : String
  interval : Nat
  expires_in : Nat
  expires_at : Option Nat
deriving Repr, DecidableEq

/-- JavaScript truthiness of the `expires_at` field combined with the
`expires_at > Date.now()` comparison: `info.expires_at && info.expires_at >
Date.now()`.  An absent field and the number `0` are both falsy. -/
def expiresAtValid (ea : Option Nat) (now : Nat) : Bool :=
  match ea with
  | some e => decide (0 < e) && decide (now < e)
  | none => false

/-- `githubDeviceCodeStorage.isActive` from `githubStorage.ts`.  Takes the
stored session (or `none`) and the current time; returns the boolean result
together with the storage contents after the call (the method clears or
rewrites the stored value as a side effect). -/
def isActive (stored : Option DeviceCodeInfo) (now : Nat) :
    Bool × Option DeviceCodeInfo :=
  match stored with
  | none => (false, none)
  | some info =>
    if expiresAtValid info.expires_at now then
      (true, some info)
    else if info.expires_in != 0 then
      -- fallback branch: recompute expires_at from expires_in
      let expiresAt := now + info.expires_in * 1000
      if now < expiresAt then
        (true, some { info with expires_at := some expiresAt })
      else
        (false, none)
    else
      (false, none)

/-- `githubDeviceCodeStorage.setWithExpiration` from `githubStorage.ts`. -/
def setWithExpiration (info : DeviceCodeInfo) (now : Nat) : Option DeviceCodeInfo :=
  some { info with expires_at := some (now + info.expires_in * 1000) }

/-- A concrete session whose `expires_at` (5) has already passed at time 10,
with the `expires_in` field still holding the wire value 900 — the shape
every session written by `startDeviceFlow` or `setWithExpiration` has. -/
def staleSession : DeviceCodeInfo :=
  { device_code := "D1"
    user_code := "ABCD-1234"
    verification_uri := "https://github.com/login/device"
    interval := 5
    expires_in := 900
    expires_at := some 5 }

/-- C1: the claim says that for every stored session with `expires_at <= now`
the check returns `false` and clears storage.  The code instead falls into
its `expires_in` fallback branch (guarded only by `expires_in` being truthy,
not by `expires_at` being absent as its comment states), refreshes the
expiry to `now + expires_in * 1000`, keeps the session, and returns `true`:
at time 10 the session that expired at time 5 is reported active and
rewritten with `expires_at = 900010`. -/
theorem isActive_refreshes_expired_session :
    isActive (some staleSession) 10
      = (true, some { staleSession with expires_at := some 900010 }) := by
  rfl

/-! ## Token polling (`pollForAccessToken`, `github-auth.ts`) -/

/-- The JSON body of a token-endpoint response, as the poll loop reads it:
`data.access_token` and `data.error`, either of which may be absent. -/
structure TokenBody where
  access_token : Option String
  error : Option String
deriving Repr, DecidableEq

/-- The outcome of one `fetch` of the token endpoint: either the call itself
throws (transport failure) or a response arrives with an `ok` flag
(status in the 2xx range) and a parsed body. -/
inductive FetchOutcome
  | thrown
  | response (ok : Bool) (body : TokenBody)
deriving Repr, DecidableEq

/-- How one run of `pollForAccessToken` ends. -/
inductive PollResult
  | token (t : String)
  | oauthError (e : String)
  | transportFailure
  | timeout
deriving Repr, DecidableEq

/-- JavaScript truthiness of an optional string field (`data.access_token`):
absent and the empty string are falsy. -/
def jsTruthyStr : Option String → Bool
  | none => false
  | some s => s != ""

/-- JavaScript stringification of `data.error` inside a template literal:
an absent field prints as `undefined`. -/
def jsStr : Option String → String
  | none => "undefined"
  | some s => s

/-- One refinement of the loop body of `pollForAccessToken`.  `oracle i` is
the outcome of the fetch on the (0-based) iteration `i`; `attempts` is the
number of iterations already completed and `remaining` the iterations the
`attempts < maxAttempts` guard still allows.  Returns the result together
with the number of iterations executed.  Mirrors the source exactly: a
non-`ok` response sleeps and continues; a body with a truthy `access_token`
returns it; `error == "authorization_pending"` sleeps and continues; any
other body throws `GitHub OAuth failed: ...`; a thrown fetch is caught and
rethrown by the surrounding `try/catch`. -/
def pollForAccessTokenAux (oracle : Nat → FetchOutcome) :
    Nat → Nat → PollResult × Nat
  | attempts, 0 => (.timeout, attempts)
  | attempts, remaining + 1 =>
    match oracle attempts with
    | .thrown => (.transportFailure, attempts + 1)
    | .response ok body =>
      if !ok then
        pollForAccessTokenAux oracle (attempts + 1) remaining
      else if jsTruthyStr body.access_token then
        (.token (body.access_token.getD ""), attempts + 1)
      else if body.error == some "authorization_pending" then
        pollForAccessTokenAux oracle (attempts + 1) remaining
      else
        (.oauthError ("GitHub OAuth failed: " ++ jsStr body.error), attempts + 1)

/-- The `maxAttempts` constant of `pollForAccessToken`. -/
def maxAttempts : Nat := 60

/-- `pollForAccessToken` from `github-auth.ts`, over a response oracle. -/
def pollForAccessToken (oracle : Nat → FetchOutcome) : PollResult × Nat :=
  pollForAccessTokenAux oracle 0 maxAttempts

/-- An outcome the loop retries after sleeping for the interval: a non-`ok`
HTTP response, or an `ok` response whose body carries no token and reports
`authorization_pending`. -/
def retriable (o : FetchOutcome) : Bool :=
  match o with
  | .thrown => false
  | .response ok body =>
    !ok || (!(jsTruthyStr body.access_token)
            && body.error == some "authorization_pending")

/-- The result the loop produces at the first non-`retriable` outcome. -/
def terminalResult (o : FetchOutcome) : PollResult :=
  match o with
  | .thrown => .transportFailure
  | .response _ body =>
    if jsTruthyStr body.access_token then .token (body.access_token.getD "")
    else .oauthError ("GitHub OAuth failed: " ++ jsStr body.error)

theorem pollForAccessTokenAux_le (oracle : Nat → FetchOutcome) :
    ∀ remaining attempts,
      (pollForAccessTokenAux oracle attempts remaining).2 ≤ attempts + remaining := by
  intro remaining
  induction remaining with
  | zero => intro attempts; simp [pollForAccessTokenAux]
  | succ r ih =>
    intro attempts
    unfold pollForAccessTokenAux
    cases h : oracle attempts with
    | thrown => simp
    | response ok body =>
      cases ok with
      | false =>
        simpa using le_trans (ih (attempts + 1)) (by omega)
      | true =>
        by_cases ht : jsTruthyStr body.access_token
        · simp [ht]
        · by_cases hp : (body.error == some "authorization_pending") = true
          · simpa [ht, hp] using le_trans (ih (attempts + 1)) (by omega)
          · simp [ht, hp]

theorem pollForAccessTokenAux_timeout (oracle : Nat → FetchOutcome) :
    ∀ remaining attempts,
      (∀ i, i < remaining → retriable (oracle (attempts + i)) = true) →
      pollForAccessTokenAux oracle attempts remaining = (.timeout, attempts + remaining) := by
  intro remaining
  induction remaining with
  | zero => intro attempts _; simp [pollForAccessTokenAux]
  | succ r ih =>
    intro attempts hret
    have h0 : retriable (oracle attempts) = true := by
      simpa using hret 0 (Nat.succ_pos r)
    unfold pollForAccessTokenAux
    cases h : oracle attempts with
    | thrown => rw [h] at h0; simp [retriable] at h0
    | response ok body =>
      rw [h] at h0
      have hrest : ∀ i, i < r → retriable (oracle (attempts + 1 + i)) = true := by
        intro i hi
        have := hret (i + 1) (by omega)
        simpa [Nat.add_assoc, Nat.add_comm 1 i] using this
      cases ok with
      | false =>
        simpa [Nat.add_assoc, Nat.add_comm 1 r] using ih (attempts + 1) hrest
      | true =>
        simp only [retriable, Bool.not_true, Bool.false_or, Bool.and_eq_true,
          Bool.not_eq_true'] at h0
        have hrec := ih (attempts + 1) hrest
        have harith : attempts + 1 + r = attempts + (r + 1) := by omega
        rw [harith] at hrec
        simp [h0.1, h0.2, hrec]

theorem pollForAccessTokenAux_terminal (oracle : Nat → FetchOutcome) :
    ∀ remaining attempts n, n < remaining →
      (∀ i, i < n → retriable (oracle (attempts + i)) = true) →
      retriable (oracle (attempts + n)) = false →
      pollForAccessTokenAux oracle attempts remaining
        = (terminalResult (oracle (attempts + n)), attempts + n + 1) := by
  intro remaining
  induction remaining with
  | zero => intro attempts n hn; omega
  | succ r ih =>
    intro attempts n hn hpre hterm
    cases n with
    | zero =>
      simp only [Nat.add_zero] at hterm
      unfold pollForAccessTokenAux
      cases h : oracle attempts with
      | thrown => simp [terminalResult, h]
      | response ok body =>
        rw [h] at hterm
        simp only [retriable, Bool.or_eq_false_iff, Bool.not_eq_false',
          Bool.and_eq_false_iff, Bool.not_eq_true'] at hterm
        obtain ⟨hok, hbody⟩ := hterm
        subst hok
        by_cases ht : jsTruthyStr body.access_token
        · simp [ht, terminalResult, h]
        · have hp : (body.error == some "authorization_pending") = false := by
            rcases hbody with h1 | h2
            · simp [ht] at h1
            · exact h2
          simp [ht, hp, terminalResult, h]
    | succ m =>
      have h0 : retriable (oracle attempts) = true := by
        simpa using hpre 0 (Nat.succ_pos m)
      unfold pollForAccessTokenAux
      cases h : oracle attempts with
      | thrown => rw [h] at h0; simp [retriable] at h0
      | response ok body =>
        rw [h] at h0
        have hpre' : ∀ i, i < m → retriable (oracle (attempts + 1 + i)) = true := by
          intro i hi
          have := hpre (i + 1) (by omega)
          simpa [Nat.add_assoc, Nat.add_comm 1 i] using this
        have hterm' : retriable (oracle (attempts + 1 + m)) = false := by
          have : attempts + 1 + m = attempts + (m + 1) := by omega
          rw [this]; exact hterm
        have hrec := ih (attempts + 1) m (by omega) hpre' hterm'
        have harith : attempts + 1 + m = attempts + (m + 1) := by omega
        rw [harith] at hrec
        cases ok with
        | false => simpa using hrec
        | true =>
          simp only [retriable, Bool.false_or, Bool.not_true, Bool.and_eq_true,
            Bool.not_eq_true'] at h0
          simpa [h0.1, h0.2] using hrec

/-- The oracle of the C2 counterexample: the first fetch throws at the
transport level; every later fetch would deliver the access token. -/
def transportThenTokenOracle : Nat → FetchOutcome :=
  fun i => if i = 0 then .thrown
           else .response true { access_token := some "tok", error := none }

/-- C2 counterexample: the claim says a transport failure is treated as
transient (sleep for the interval, retry).  On this oracle the poll
instead terminates after the single failed iteration, rethrowing the
transport error; it never reaches the token the second fetch would have
delivered. -/
theorem poll_transport_failure_is_terminal :
    pollForAccessToken transportThenTokenOracle = (.transportFailure, 1)
    ∧ (pollForAccessToken transportThenTokenOracle).1 ≠ .token "tok" := by
  constructor
  · rfl
  · intro h
    simp [pollForAccessToken, pollForAccessTokenAux, maxAttempts,
      transportThenTokenOracle] at h

/-- C2 amended: during token polling the transient case is a non-success
HTTP status — after `n < 60` consecutive non-`ok` responses the loop is
still running, so a token delivered on iteration `n` is returned.  A
transport failure (the fetch itself throwing) is terminal: at position `n`
it ends the poll at iteration `n + 1` with the error propagating. -/
theorem poll_http_failures_transient_transport_terminal
    (oracle : Nat → FetchOutcome) (n : Nat) (hn : n < 60)
    (hpre : ∀ i, i < n → ∃ body, oracle i = .response false body) :
    (oracle n = .thrown →
      pollForAccessToken oracle = (.transportFailure, n + 1))
    ∧ (∀ t, t ≠ "" →
        oracle n = .response true { access_token := some t, error := none } →
        pollForAccessToken oracle = (.token t, n + 1)) := by
  have hret : ∀ i, i < n → retriable (oracle i) = true := by
    intro i hi
    obtain ⟨body, hb⟩ := hpre i hi
    simp [hb, retriable]
  constructor
  · intro hth
    have := pollForAccessTokenAux_terminal oracle maxAttempts 0 n
      (by simpa [maxAttempts] using hn)
      (by simpa using hret)
      (by simp [hth, retriable])
    simpa [pollForAccessToken, hth, terminalResult] using this
  · intro t ht hto
    have hterm : retriable (oracle n) = false := by
      simp [hto, retriable, jsTruthyStr, ht]
    have := pollForAccessTokenAux_terminal oracle maxAttempts 0 n
      (by simpa [maxAttempts] using hn)
      (by simpa using hret)
      (by simpa using hterm)
    simpa [pollForAccessToken, hto, terminalResult, jsTruthyStr, ht] using this

/-- C2 witness: one 500-class response followed by a token — the HTTP
failure is retried and the token is returned on the second iteration. -/
theorem poll_http_failures_transient_transport_terminal_witness :
    pollForAccessToken
      (fun i => if i = 0 then .response false { access_token := none, error := none }
                else .response true { access_token := some "tok", error := none })
      = (.token "tok", 2) := by
  have h := poll_http_failures_transient_transport_terminal
    (fun i => if i = 0 then .response false { access_token := none, error := none }
              else .response true { access_token := some "tok", error := none })
    1 (by omega)
    (by intro i hi
        refine ⟨{ access_token := none, error := none }, ?_⟩
        interval_cases i
        rfl)
  exact h.2 "tok" (by decide) rfl

/-- C6: for every response oracle the polling loop (a) executes at most 60
iterations — hence finishes within `maxAttempts * interval` wall-clock
time; (b) terminates at iteration `n + 1`, without further iterations, on
the first outcome that is not retried (not `authorization_pending` and not
a retried failed response), returning the access token when the body
carries one and a terminal error otherwise; and (c) fails with the
authentication-timeout result after exhausting all 60 iterations. -/
theorem poll_iteration_cap_and_termination (oracle : Nat → FetchOutcome) :
    (pollForAccessToken oracle).2 ≤ 60
    ∧ (∀ n, n < 60 →
        (∀ i, i < n → retriable (oracle i) = true) →
        retriable (oracle n) = false →
        pollForAccessToken oracle = (terminalResult (oracle n), n + 1))
    ∧ ((∀ i, i < 60 → retriable (oracle i) = true) →
        pollForAccessToken oracle = (.timeout, 60)) := by
  refine ⟨?_, ?_, ?_⟩
  · simpa [pollForAccessToken, maxAttempts] using
      pollForAccessTokenAux_le oracle maxAttempts 0
  · intro n hn hpre hterm
    have := pollForAccessTokenAux_terminal oracle maxAttempts 0 n
      (by simpa [maxAttempts] using hn)
      (by simpa using hpre)
      (by simpa using hterm)
    simpa [pollForAccessToken] using this
  · intro hall
    have := pollForAccessTokenAux_timeout oracle maxAttempts 0
      (by simpa [maxAttempts] using hall)
    simpa [pollForAccessToken] using this

/-- C6 witness: under sixty straight `authorization_pending` responses the
poll runs exactly 60 iterations and times out. -/
theorem poll_iteration_cap_and_termination_witness :
    pollForAccessToken
      (fun _ => .response true { access_token := none, error := some "authorization_pending" })
      = (.timeout, 60) := by
  exact (poll_iteration_cap_and_termination
    (fun _ => .response true { access_token := none, error := some "authorization_pending" })).2.2
    (by intro i _; rfl)

/-! ## Message responses and the login handler (`background/index.ts`) -/

/-- A JSON value in a handler response.  Nested payloads (user info, commit
results, repository lists) are carried opaquely by `jobj`. -/
inductive JVal
  | jb (v : Bool)
  | js (v : String)
  | jobj (payload : String)
deriving Repr, DecidableEq

/-- A handler response object: an association list of fields. -/
abbrev Response := List (String × JVal)

/-- Result of one synchronous run of `handleGithubLogin`: the response sent,
the device-code storage afterwards, and whether a new device flow was
started (a device-code request issued).  The detached background poll the
handler spawns is modelled separately by `pollForAccessToken`; its
completion callback is not part of this synchronous step. -/
structure LoginStep where
  response : Response
  store : Option DeviceCodeInfo
  startedNewFlow : Bool
deriving Repr, DecidableEq

/-- `handleGithubLogin` from `background/index.ts` composed with
`startDeviceFlow` from `github-auth.ts`.  `net` is the outcome the
device-code endpoint would produce if called: `Except.ok data` for a
successful response (whose `expires_at` the source then overwrites with
`now + expires_in * 1000` before storing), `Except.error msg` when
`startDeviceFlow` throws. -/
def handleGithubLogin (store : Option DeviceCodeInfo) (now : Nat)
    (net : Except String DeviceCodeInfo) : LoginStep :=
  let checked := isActive store now
  if checked.1 then
    match checked.2 with
    | some info =>
      { response := [("success", .jb true), ("alreadyInProgress", .jb true),
                     ("deviceCode", .js info.user_code),
                     ("verificationUrl", .js info.verification_uri)]
        store := checked.2
        startedNewFlow := false }
    | none =>
      -- unreachable: isActive only reports true with a stored session
      { response := [("success", .jb false),
                     ("error", .js "Internal error checking auth status")]
        store := checked.2
        startedNewFlow := false }
  else
    match net with
    | .ok data =>
      { response := [("success", .jb true),
                     ("deviceCode", .js data.user_code),
                     ("verificationUrl", .js data.verification_uri)]
        store := setWithExpiration data now
        startedNewFlow := true }
    | .error msg =>
      { response := [("success", .jb false), ("error", .js msg)]
        store := checked.2
        startedNewFlow := false }

/-- The response `handleGithubLogin` sends when it starts a fresh flow. -/
def loginStartedResponse (d : DeviceCodeInfo) : Response :=
  [("success", .jb true), ("deviceCode", .js d.user_code),
   ("verificationUrl", .js d.verification_uri)]

/-- The response `handleGithubLogin` sends while a flow is already active. -/
def loginInProgressResponse (s : DeviceCodeInfo) : Response :=
  [("success", .jb true), ("alreadyInProgress", .jb true),
   ("deviceCode", .js s.user_code), ("verificationUrl", .js s.verification_uri)]

/-- Run a sequence of `github-login` dispatches.  Each list element is the
call time and the device-code-endpoint outcome that call would see.
Returns the responses in order, the final storage contents, and how many
calls started a new device flow. -/
def runLoginCalls : Option DeviceCodeInfo →
    List (Nat × Except String DeviceCodeInfo) →
    List Response × Option DeviceCodeInfo × Nat
  | store, [] => ([], store, 0)
  | store, (now, net) :: rest =>
    let step := handleGithubLogin store now net
    let tail := runLoginCalls step.store rest
    (step.response :: tail.1, tail.2.1,
     (if step.startedNewFlow then 1 else 0) + tail.2.2)

theorem handleGithubLogin_active (s : DeviceCodeInfo) (e now : Nat)
    (net : Except String DeviceCodeInfo)
    (he : s.expires_at = some e) (hnow : now < e) :
    handleGithubLogin (some s) now net =
      { response := loginInProgressResponse s
        store := some s
        startedNewFlow := false } := by
  have h0 : 0 < e := Nat.lt_of_le_of_lt (Nat.zero_le now) hnow
  simp [handleGithubLogin, isActive, expiresAtValid, he, h0, hnow,
    loginInProgressResponse]

theorem runLoginCalls_active (s : DeviceCodeInfo) (e : Nat)
    (he : s.expires_at = some e) :
    ∀ calls : List (Nat × Except String DeviceCodeInfo),
      (∀ c ∈ calls, c.1 < e) →
      runLoginCalls (some s) calls
        = (calls.map (fun _ => loginInProgressResponse s), some s, 0) := by
  intro calls
  induction calls with
  | nil => intro _; simp [runLoginCalls]
  | cons c rest ih =>
    intro hc
    have hstep := handleGithubLogin_active s e c.1 c.2 he
      (hc c (List.mem_cons_self c rest))
    have hrest := ih (fun x hx => hc x (List.mem_cons_of_mem c hx))
    simp [runLoginCalls, hstep, hrest]

/-- C3: single-flight login.  Starting from empty device-code storage, the
first `github-login` call (at time `t0`, with the device-code endpoint
returning `d`) starts a flow and stores the session
`{d with expires_at := t0 + expires_in * 1000}`.  For every subsequent
sequence of calls made while that session is non-expired (each call time
below `expires_at`), no further flow is started — exactly one device-code
request is ever issued — the storage still holds the very session the
first call created, and every subsequent response surfaces that session's
`user_code` and `verification_uri` unchanged. -/
theorem login_single_flight (d : DeviceCodeInfo) (t0 : Nat)
    (calls : List (Nat × Except String DeviceCodeInfo))
    (hcalls : ∀ c ∈ calls, c.1 < t0 + d.expires_in * 1000) :
    runLoginCalls none ((t0, Except.ok d) :: calls)
      = (loginStartedResponse d ::
          calls.map (fun _ => loginInProgressResponse
            { d with expires_at := some (t0 + d.expires_in * 1000) }),
         some { d with expires_at := some (t0 + d.expires_in * 1000) }, 1)
    ∧ (loginInProgressResponse
          { d with expires_at := some (t0 + d.expires_in * 1000) }).lookup "deviceCode"
        = some (.js d.user_code)
    ∧ (loginInProgressResponse
          { d with expires_at := some (t0 + d.expires_in * 1000) }).lookup "verificationUrl"
        = some (.js d.verification_uri) := by
  refine ⟨?_, by rfl, by rfl⟩
  have hfirst : handleGithubLogin none t0 (Except.ok d) =
      { response := loginStartedResponse d
        store := some { d with expires_at := some (t0 + d.expires_in * 1000) }
        startedNewFlow := true } := by
    simp [handleGithubLogin, isActive, setWithExpiration, loginStartedResponse]
  have hrest := runLoginCalls_active
    { d with expires_at := some (t0 + d.expires_in * 1000) }
    (t0 + d.expires_in * 1000) rfl calls hcalls
  simp [runLoginCalls, hfirst, hrest]

/-- C3 witness: a concrete flow started at time 0 with a 900-second expiry,
followed by two more login calls at times 1 and 2: one flow started, the
stored session unchanged, both later responses re-surface the session. -/
theorem login_single_flight_witness :
    runLoginCalls none
      ((0, Except.ok staleSession) :: [(1, Except.error "down"), (2, Except.ok staleSession)])
      = (loginStartedResponse staleSession ::
          [loginInProgressResponse { staleSession with expires_at := some 900000 },
           loginInProgressResponse { staleSession with expires_at := some 900000 }],
         some { staleSession with expires_at := some 900000 }, 1) := by
  have h := (login_single_flight staleSession 0
    [(1, Except.error "down"), (2, Except.ok staleSession)]
    (by intro c hc
        simp only [List.mem_cons, List.not_mem_nil, or_false] at hc
        rcases hc with rfl | rfl
        · norm_num [staleSession]
        · norm_num [staleSession])).1
  simpa [staleSession] using h

/-! ## Commit publisher (`github-api.ts` and the content script) -/

/-- The `RepoConfig` record of `githubStorage.ts`. -/
structure RepoConfig where
  owner : String
  repo : String
  branch : String
  path : String
deriving Repr, DecidableEq

/-- `githubRepoStorage.updatePath`: the updater function the source passes
to `set`, applied to the stored configuration. -/
def updatePath (config : RepoConfig) (path : String) : RepoConfig :=
  { config with path := path }

/-- C10: `updatePath` writes only the `path` field: the stored target's
`owner`, `repo` and `branch` are returned unchanged, and `path` becomes
exactly the supplied string. -/
theorem updatePath_frame (config : RepoConfig) (p : String) :
    (updatePath config p).owner = config.owner
    ∧ (updatePath config p).repo = config.repo
    ∧ (updatePath config p).branch = config.branch
    ∧ (updatePath config p).path = p := by
  refine ⟨rfl, rfl, rfl, rfl⟩

/-- The payload the content script sends to `submit-leetcode-solution`:
the `dataToSend` object of `saveSolutionToGitHub`.  `extension` is optional
in `commitSolutionToGithub`'s parameter type. -/
structure SolutionData where
  problemId : String
  problemName : String
  language : String
  extension : Option String
  code : String
deriving Repr, DecidableEq

/-- The `languageToExtension` table of `saveSolutionToGitHub`
(`githubStorage.ts` content script). -/
def extensionTable : List (String × String) :=
  [("c", "c"), ("cpp", "cpp"), ("c++", "cpp"), ("java", "java"),
   ("python", "py"), ("python3", "py"), ("csharp", "cs"), ("c#", "cs"),
   ("javascript", "js"), ("typescript", "ts"), ("php", "php"),
   ("swift", "swift"), ("kotlin", "kt"), ("dart", "dart"), ("go", "go"),
   ("ruby", "rb"), ("scala", "scala"), ("rust", "rs"), ("racket", "rkt"),
   ("erlang", "erl"), ("elixir", "ex"), ("unknown", "txt")]

/-- Property lookup on the `languageToExtension` object. -/
def languageToExtension (lang : String) : Option String :=
  extensionTable.lookup lang

/-- ASCII lowercasing of one character (`String.prototype.toLowerCase`
restricted to the ASCII range the language labels live in). -/
def charToLower (c : Char) : Char :=
  if 65 ≤ c.toNat ∧ c.toNat ≤ 90 then Char.ofNat (c.toNat + 32) else c

/-- `language.toLowerCase()` on ASCII strings. -/
def toLowerAscii (s : String) : String :=
  String.mk (s.toList.map charToLower)

/-- The extension selection of `saveSolutionToGitHub`: look the lower-cased
language up in the table, defaulting to `txt`. -/
def extensionForLanguage (language : String) : String :=
  (languageToExtension (toLowerAscii language)).getD "txt"

theorem lookup_val_mem : ∀ (l : List (String × String)) (k v : String),
    l.lookup k = some v → v ∈ l.map Prod.snd := by
  intro l
  induction l with
  | nil => intro k v h; simp [List.lookup] at h
  | cons p rest ih =>
    intro k v h
    obtain ⟨pk, pv⟩ := p
    rw [List.lookup] at h
    by_cases hk : (k == pk) = true
    · simp only [hk] at h
      injection h with h2
      simp [h2]
    · simp only [Bool.not_eq_true] at hk
      simp only [hk] at h
      simpa using Or.inr (ih k v h)

theorem extensionForLanguage_ne_empty (l : String) :
    extensionForLanguage l ≠ "" := by
  unfold extensionForLanguage
  cases h : languageToExtension (toLowerAscii l) with
  | none => simp
  | some e =>
    simp only [Option.getD_some]
    have hm := lookup_val_mem extensionTable (toLowerAscii l) e h
    have hall : ∀ x ∈ extensionTable.map Prod.snd, x ≠ "" := by decide
    exact hall e hm

/-- `saveSolutionToGitHub` (content script): the `dataToSend` object it
builds and sends to the background script, with the extension drawn from
the language table. -/
def saveSolutionToGitHub (problemId problemName language code : String) :
    SolutionData :=
  { problemId := problemId
    problemName := problemName
    language := language
    extension := some (extensionForLanguage language)
    code := code }

/-- UTF-8 encoding of one character, as
`unescape(encodeURIComponent(...))` produces byte-per-character. -/
def charUtf8 (c : Char) : List Nat :=
  let n := c.toNat
  if n < 128 then [n]
  else if n < 2048 then [192 + n / 64, 128 + n % 64]
  else if n < 65536 then [224 + n / 4096, 128 + n / 64 % 64, 128 + n % 64]
  else [240 + n / 262144, 128 + n / 4096 % 64, 128 + n / 64 % 64, 128 + n % 64]

/-- UTF-8 bytes of a string. -/
def utf8Bytes (s : String) : List Nat :=
  (s.toList.map charUtf8).flatten

/-- The base64 alphabet. -/
def base64Chars : List Char :=
  "ABCDEFGHIJKLMNOPQRSTUVWXYZabcdefghijklmnopqrstuvwxyz0123456789+/".toList

/-- The base64 digit for a 6-bit value. -/
def b64Char (n : Nat) : Char := base64Chars.getD n 'A'

/-- `btoa`: base64 of a byte sequence. -/
def base64EncodeBytes : List Nat → String
  | [] => ""
  | [b1] =>
    String.mk [b64Char (b1 / 4), b64Char (b1 % 4 * 16), '=', '=']
  | [b1, b2] =>
    String.mk [b64Char (b1 / 4), b64Char (b1 % 4 * 16 + b2 / 16),
               b64Char (b2 % 16 * 4), '=']
  | b1 :: b2 :: b3 :: rest =>
    String.mk [b64Char (b1 / 4), b64Char (b1 % 4 * 16 + b2 / 16),
               b64Char (b2 % 16 * 4 + b3 / 64), b64Char (b3 % 64)]
      ++ base64EncodeBytes rest

/-- `btoa(unescape(encodeURIComponent(code)))` from
`commitSolutionToGithub`. -/
def base64Utf8 (s : String) : String := base64EncodeBytes (utf8Bytes s)

/-- One PUT request to the contents endpoint, as
`commitSolutionToGithub` assembles it. -/
structure PutRequest where
  url : String
  message : String
  content : String
  branch : String
deriving Repr, DecidableEq

/-- The outcome of a contents-endpoint `fetch`: a transport-level throw, or
a response with its `ok` flag and parsed JSON body (for a non-`ok`
response, `body` stands for the `message` field of the error payload;
for an `ok` response, for the commit-result payload). -/
inductive NetOutcome
  | thrown (msg : String)
  | response (ok : Bool) (body : String)
deriving Repr, DecidableEq

/-- The `fileName` computed by `commitSolutionToGithub`:
`${data.problemId}_${timestamp}.${extension}` with
`extension = data.extension || 'txt'`. -/
def commitFileName (data : SolutionData) (now : Nat) : String :=
  data.problemId ++ "_" ++ toString now ++ "."
    ++ (match data.extension with
        | some e => if e = "" then "txt" else e
        | none => "txt")

/-- `path.endsWith('/')`: the string's last character is the separator. -/
def endsWithSlash (s : String) : Bool :=
  match s.toList.getLast? with
  | some c => c == '/'
  | none => false

/-- The `filePath` computed by `commitSolutionToGithub`: the file name under
`repoConfig.path`, the prefix forced to end with `/` when non-empty. -/
def commitFilePath (repoConfig : RepoConfig) (data : SolutionData) (now : Nat) :
    String :=
  if repoConfig.path = "" then commitFileName data now
  else (if endsWithSlash repoConfig.path then repoConfig.path
        else repoConfig.path ++ "/") ++ commitFileName data now

/-- The single PUT request `commitSolutionToGithub` assembles: URL of the
contents endpoint for the computed path, the commit message, the base64
content, and `repoConfig.branch || 'main'`. -/
def commitRequest (repoConfig : RepoConfig) (data : SolutionData) (now : Nat) :
    PutRequest :=
  { url := "https://api.github.com/repos/" ++ repoConfig.owner ++ "/"
      ++ repoConfig.repo ++ "/contents/" ++ commitFilePath repoConfig data now
    message := "Solution for " ++ data.problemId ++ ": " ++ data.problemName
      ++ " (" ++ data.language ++ ")"
    content := base64Utf8 data.code
    branch := if repoConfig.branch = "" then "main" else repoConfig.branch }

/-- `commitSolutionToGithub` from `github-api.ts`.  `token` is the stored
credential, `repoConfig` the stored target, `now` the `Date.now()`
timestamp, and `net` maps the assembled PUT request to its outcome.
Returns the thrown-or-returned result together with the list of network
requests issued (so "no network call" is `[]`). -/
def commitSolutionToGithub (token : String) (repoConfig : RepoConfig)
    (data : SolutionData) (now : Nat) (net : PutRequest → NetOutcome) :
    Except String String × List PutRequest :=
  if token = "" ∨ repoConfig.owner = "" ∨ repoConfig.repo = "" then
    (.error "Missing GitHub configuration", [])
  else
    let req := commitRequest repoConfig data now
    match net req with
    | .thrown msg => (.error msg, [req])
    | .response ok body =>
      if ok then (.ok body, [req])
      else (.error ("GitHub API error: " ++ body), [req])

/-- A path prefix normalized to end with the separator (empty prefix:
no directory component). -/
def normalizedDir (p : String) : String :=
  if p = "" then "" else if endsWithSlash p then p else p ++ "/"

/-- A network oracle accepting every PUT. -/
def acceptingNet : PutRequest → NetOutcome :=
  fun _ => .response true "commit-result"

theorem commit_requests_eq (token : String) (cfg : RepoConfig)
    (data : SolutionData) (now : Nat) (net : PutRequest → NetOutcome)
    (h : ¬(token = "" ∨ cfg.owner = "" ∨ cfg.repo = "")) :
    (commitSolutionToGithub token cfg data now net).2
      = [commitRequest cfg data now] := by
  unfold commitSolutionToGithub
  rw [if_neg h]
  cases hnet : net (commitRequest cfg data now) with
  | thrown msg => simp [hnet]
  | response ok body => cases ok <;> simp [hnet]

theorem commitFilePath_normalized (cfg : RepoConfig) (data : SolutionData)
    (now : Nat) :
    commitFilePath cfg data now
      = normalizedDir cfg.path ++ commitFileName data now := by
  unfold commitFilePath normalizedDir
  by_cases hp : cfg.path = ""
  · simp [hp]
  · by_cases he : endsWithSlash cfg.path = true <;> simp [hp, he]

theorem commitFileName_from_table (problemId problemName language code : String)
    (now : Nat) :
    commitFileName (saveSolutionToGitHub problemId problemName language code) now
      = problemId ++ "_" ++ toString now ++ "." ++ extensionForLanguage language := by
  simp [commitFileName, saveSolutionToGitHub, extensionForLanguage_ne_empty language]

/-- C4: the destination of a publish.  In general (owner, repo and
credential non-empty), the solution of `saveSolutionToGitHub` is PUT — as
its single network request — to the contents endpoint at the path made of
the prefix normalized to end with a separator, then `problem_id`, an
underscore, the millisecond timestamp, a dot, and the extension drawn from
the language table (default `txt`), carrying the base64 of the UTF-8
source and the target branch; and concretely, for target owner `u`, repo
`r`, path `sol` and the python solution `x=1` of `two-sum` at timestamp
1000, the PUT path is `sol/two-sum_1000.py` and the content the base64
`eD0x` of `x=1`. -/
theorem commit_destination_path (token : String) (cfg : RepoConfig)
    (problemId problemName language code : String) (now : Nat)
    (net : PutRequest → NetOutcome)
    (htoken : token ≠ "") (howner : cfg.owner ≠ "") (hrepo : cfg.repo ≠ "") :
    (commitSolutionToGithub token cfg
        (saveSolutionToGitHub problemId problemName language code) now net).2
      = [{ url := "https://api.github.com/repos/" ++ cfg.owner ++ "/" ++ cfg.repo
             ++ "/contents/" ++ normalizedDir cfg.path ++ problemId ++ "_"
             ++ toString now ++ "." ++ extensionForLanguage language
           message := "Solution for " ++ problemId ++ ": " ++ problemName
             ++ " (" ++ language ++ ")"
           content := base64Utf8 code
           branch := if cfg.branch = "" then "main" else cfg.branch }]
    ∧ (commitSolutionToGithub "tok"
        { owner := "u", repo := "r", branch := "main", path := "sol" }
        (saveSolutionToGitHub "two-sum" "Two Sum" "python" "x=1") 1000
        acceptingNet).2
      = [{ url := "https://api.github.com/repos/u/r/contents/sol/two-sum_1000.py"
           message := "Solution for two-sum: Two Sum (python)"
           content := "eD0x"
           branch := "main" }] := by
  constructor
  · rw [commit_requests_eq token cfg _ now net (by simp [htoken, howner, hrepo])]
    unfold commitRequest
    rw [commitFilePath_normalized, commitFileName_from_table]
    simp [saveSolutionToGitHub, String.append_assoc]
  · rfl

/-- C4 witness: the general part applied to the scenario's inputs. -/
theorem commit_destination_path_witness :
    (commitSolutionToGithub "tok"
        { owner := "u", repo := "r", branch := "main", path := "sol" }
        (saveSolutionToGitHub "two-sum" "Two Sum" "python" "x=1") 1000
        acceptingNet).2
      = [{ url := "https://api.github.com/repos/u/r/contents/"
             ++ normalizedDir "sol" ++ "two-sum" ++ "_" ++ toString (1000 : Nat)
             ++ "." ++ extensionForLanguage "python"
           message := "Solution for two-sum: Two Sum (python)"
           content := base64Utf8 "x=1"
           branch := "main" }] := by
  have h := (commit_destination_path "tok"
    { owner := "u", repo := "r", branch := "main", path := "sol" }
    "two-sum" "Two Sum" "python" "x=1" 1000 acceptingNet
    (by decide) (by decide) (by decide)).1
  simpa using h

/-- C5 counterexample: the claim asserts that `publish` issues exactly one
PUT whenever owner and repo are both non-empty, for every credential.  With
the empty credential (`token` falsy) and owner `u`, repo `r`, the source's
guard `!token || !config.owner || !config.repo` fires: no request is issued
and the missing-configuration error is thrown instead. -/
theorem commit_empty_token_no_put :
    ("u" : String) ≠ "" ∧ ("r" : String) ≠ ""
    ∧ (commitSolutionToGithub ""
        { owner := "u", repo := "r", branch := "main", path := "sol" }
        (saveSolutionToGitHub "two-sum" "Two Sum" "python" "x=1") 1000
        acceptingNet)
      = (.error "Missing GitHub configuration", [])
    ∧ (commitSolutionToGithub ""
        { owner := "u", repo := "r", branch := "main", path := "sol" }
        (saveSolutionToGitHub "two-sum" "Two Sum" "python" "x=1") 1000
        acceptingNet).2.length ≠ 1 := by
  refine ⟨by decide, by decide, by rfl, by decide⟩

/-- C5 amended: `publish` issues no network call and fails with the
missing-configuration error whenever the owner or the repo — or the stored
credential — is empty; when owner, repo and credential are all non-empty it
issues exactly one PUT request. -/
theorem commit_put_count (token : String) (cfg : RepoConfig)
    (data : SolutionData) (now : Nat) (net : PutRequest → NetOutcome) :
    ((cfg.owner = "" ∨ cfg.repo = "" ∨ token = "") →
      commitSolutionToGithub token cfg data now net
        = (.error "Missing GitHub configuration", []))
    ∧ (token ≠ "" → cfg.owner ≠ "" → cfg.repo ≠ "" →
      (commitSolutionToGithub token cfg data now net).2.length = 1) := by
  constructor
  · intro h
    unfold commitSolutionToGithub
    rw [if_pos (by tauto)]
  · intro ht ho hr
    rw [commit_requests_eq token cfg data now net (by simp [ht, ho, hr])]
    rfl

/-- C5 witness: with non-empty credential, owner and repo exactly one PUT
is issued, and with an empty owner none is. -/
theorem commit_put_count_witness :
    (commitSolutionToGithub "tok"
        { owner := "u", repo := "r", branch := "main", path := "sol" }
        (saveSolutionToGitHub "two-sum" "Two Sum" "python" "x=1") 1000
        acceptingNet).2.length = 1
    ∧ commitSolutionToGithub "tok"
        { owner := "", repo := "r", branch := "main", path := "sol" }
        (saveSolutionToGitHub "two-sum" "Two Sum" "python" "x=1") 1000
        acceptingNet
      = (.error "Missing GitHub configuration", []) := by
  constructor
  · exact (commit_put_count "tok"
      { owner := "u", repo := "r", branch := "main", path := "sol" }
      (saveSolutionToGitHub "two-sum" "Two Sum" "python" "x=1") 1000
      acceptingNet).2 (by decide) (by decide) (by decide)
  · exact (commit_put_count "tok"
      { owner := "", repo := "r", branch := "main", path := "sol" }
      (saveSolutionToGitHub "two-sum" "Two Sum" "python" "x=1") 1000
      acceptingNet).1 (Or.inl rfl)

/-! ## Submission watcher (`setupPageMonitoring`, content script) -/

/-- The module-level mutable state of the content script:
`lastProcessedSubmissionId` and `isWaitingForSubmissionResult`. -/
structure WatcherState where
  lastProcessedSubmissionId : Option String
  isWaitingForSubmissionResult : Bool
deriving Repr, DecidableEq

/-- What the `MutationObserver` callback sees for one added result node:
whether a `submission-result` element whose text includes `Accepted` is
present, and the submission id `extractSubmissionIdFromPage` derives (URL
pattern first, DOM attribute fallback, else `null`). -/
structure ResultMutation where
  accepted : Bool
  derivedId : Option String
deriving Repr, DecidableEq

/-- The `submissionId && submissionId === lastProcessedSubmissionId` guard:
true only when a non-null id equals the non-null last-processed id. -/
def sameAsLastProcessed (submissionId lastId : Option String) : Bool :=
  match submissionId, lastId with
  | some s, some l => s == l
  | _, _ => false

/-- One run of the `resultObserver` callback of `setupPageMonitoring` on a
mutation batch containing one added node.  Returns the new state and
whether `processSuccessfulSubmission` was invoked (a SubmissionEvent
emitted). -/
def processMutation (st : WatcherState) (m : ResultMutation) :
    WatcherState × Bool :=
  if !st.isWaitingForSubmissionResult then (st, false)
  else if !m.accepted then (st, false)
  else if sameAsLastProcessed m.derivedId st.lastProcessedSubmissionId then
    (st, false)
  else
    ({ lastProcessedSubmissionId := m.derivedId
       isWaitingForSubmissionResult := false }, true)

/-- Process a pair of mutation events, optionally re-arming the
`isWaitingForSubmissionResult` flag between them (a submit click);
counts the SubmissionEvents emitted. -/
def processMutationPair (st : WatcherState) (m1 m2 : ResultMutation)
    (rearm : Bool) : Nat :=
  let r1 := processMutation st m1
  let st1 := if rearm
    then { r1.1 with isWaitingForSubmissionResult := true }
    else r1.1
  let r2 := processMutation st1 m2
  (if r1.2 then 1 else 0) + (if r2.2 then 1 else 0)

/-- C7: two structural-mutation events whose success result elements yield
the same derived submission identifier trigger at most one
extraction-and-publish cycle, from any watcher state and whether or not a
submit click re-arms the flag in between: the first emission records the
id in `lastProcessedSubmissionId`, which suppresses the second. -/
theorem duplicate_submission_suppressed (st : WatcherState) (s : String)
    (rearm : Bool) :
    processMutationPair st { accepted := true, derivedId := some s }
      { accepted := true, derivedId := some s } rearm ≤ 1 := by
  unfold processMutationPair processMutation
  cases hw : st.isWaitingForSubmissionResult with
  | false =>
    cases rearm with
    | false => simp [hw]
    | true =>
      by_cases hs : sameAsLastProcessed (some s) st.lastProcessedSubmissionId = true
      <;> simp [hw, hs]
  | true =>
    by_cases hs : sameAsLastProcessed (some s) st.lastProcessedSubmissionId = true
    · cases rearm <;> simp [hw, hs]
    · have hself : sameAsLastProcessed (some s) (some s) = true := by
        simp [sameAsLastProcessed]
      cases rearm <;> simp [hw, hs, hself]

/-! ## Token validation (`github-auth.ts`) -/

/-- The outcome of the `fetch` of the identity endpoint inside
`validateGithubToken`: a transport-level throw, or a response with its
HTTP status code. -/
inductive ValidateOutcome
  | thrown
  | status (code : Nat)
deriving Repr, DecidableEq

/-- `validateGithubToken`: true exactly when the response status is 200;
a thrown fetch is caught and yields false. -/
def validateGithubToken (out : ValidateOutcome) : Bool :=
  match out with
  | .thrown => false
  | .status code => code == 200

/-- `isAuthenticated` from `github-auth.ts`: read the stored credential;
an absent (empty) token short-circuits to false, otherwise the token is
validated remotely.  The second component counts the network calls made. -/
def isAuthenticated (token : String) (out : ValidateOutcome) : Bool × Nat :=
  if token = "" then (false, 0)
  else (validateGithubToken out, 1)

/-- C9: with no stored credential `isAuthenticated` is false and performs
no network call; with a credential stored it makes the identity-endpoint
call and is true exactly when that endpoint answers with status 200 — a
locally stored but remotely rejected or unreachable token presents as
unauthenticated. -/
theorem isAuthenticated_requires_remote_200 (token : String)
    (out : ValidateOutcome) :
    (token = "" → isAuthenticated token out = (false, 0))
    ∧ (token ≠ "" →
        ((isAuthenticated token out).1 = true ↔ out = .status 200)
        ∧ (isAuthenticated token out).2 = 1) := by
  constructor
  · intro h
    simp [isAuthenticated, h]
  · intro h
    refine ⟨?_, by simp [isAuthenticated, h]⟩
    simp only [isAuthenticated, h, if_neg h]
    cases out with
    | thrown => simp [validateGithubToken]
    | status code =>
      simp [validateGithubToken]

/-- C9 witness: the empty credential is unauthenticated without network
traffic; a stored credential with a 200 identity response is
authenticated, and one with a 401 response is not. -/
theorem isAuthenticated_requires_remote_200_witness :
    isAuthenticated "" (.status 200) = (false, 0)
    ∧ (isAuthenticated "tok" (.status 200)).1 = true
    ∧ (isAuthenticated "tok" (.status 401)).1 ≠ true := by
  refine ⟨(isAuthenticated_requires_remote_200 "" (.status 200)).1 rfl, ?_, ?_⟩
  · exact ((isAuthenticated_requires_remote_200 "tok" (.status 200)).2
      (by decide)).1.mpr rfl
  · intro h
    have := ((isAuthenticated_requires_remote_200 "tok" (.status 401)).2
      (by decide)).1.mp h
    simp at this

/-! ## The remaining message handlers (`background/index.ts`) -/

/-- `handleCheckDeviceFlow`: checks `isActive`, then surfaces the stored
session.  Returns the response and the storage state afterwards (the
`error.message` branch models the handler's `.catch`). -/
def handleCheckDeviceFlow (store : Option DeviceCodeInfo) (now : Nat) :
    Response × Option DeviceCodeInfo :=
  let checked := isActive store now
  if checked.1 then
    match checked.2 with
    | some info =>
      ([("inProgress", .jb true), ("deviceCode", .js info.user_code),
        ("verificationUrl", .js info.verification_uri)], checked.2)
    | none =>
      ([("inProgress", .jb false),
        ("error", .js "Internal error checking auth status")], checked.2)
  else ([("inProgress", .jb false)], checked.2)

/-- `handleCancelDeviceFlow`: clears the session unconditionally. -/
def handleCancelDeviceFlow (_store : Option DeviceCodeInfo) :
    Response × Option DeviceCodeInfo :=
  ([("success", .jb true)], none)

/-- `handleCheckAuthStatus`: runs `isAuthenticated`; when logged in,
fetches the user info (`uinfo` is that call's outcome — the error case is
routed through the handler's `.catch`). -/
def handleCheckAuthStatus (token : String) (vout : ValidateOutcome)
    (uinfo : Except String String) : Response :=
  if (isAuthenticated token vout).1 then
    match uinfo with
    | .ok u => [("isLoggedIn", .jb true), ("user", .jobj u)]
    | .error msg => [("isLoggedIn", .jb false), ("error", .js msg)]
  else [("isLoggedIn", .jb false)]

/-- `handleLogout`: clears the stored credential. -/
def handleLogout (_token : String) : Response × String :=
  ([("success", .jb true)], "")

/-- `handleOpenVerificationPage`: opens the stored verification URI if a
session with a truthy `verification_uri` exists. -/
def handleOpenVerificationPage (store : Option DeviceCodeInfo) : Response :=
  match store with
  | some info =>
    if info.verification_uri != "" then [("success", .jb true)]
    else [("success", .jb false), ("error", .js "No active device flow found")]
  | none =>
    [("success", .jb false), ("error", .js "No active device flow found")]

/-- `handleFetchRepositories`: token guard, then the repo-list fetch
(outcome `rnet`, its payload carried opaquely). -/
def handleFetchRepositories (token : String) (rnet : Except String String) :
    Response :=
  if token = "" then
    [("success", .jb false), ("error", .js "Not authenticated with GitHub")]
  else
    match rnet with
    | .ok repos => [("success", .jb true), ("repositories", .jobj repos)]
    | .error msg => [("success", .jb false), ("error", .js msg)]

/-- `handleSaveRepoConfig`: stores the supplied configuration. -/
def handleSaveRepoConfig (config : RepoConfig) : Response × RepoConfig :=
  ([("success", .jb true)], config)

/-- `handleUpdateRepoPath`: updates only the path of the stored target. -/
def handleUpdateRepoPath (stored : RepoConfig) (p : String) :
    Response × RepoConfig :=
  ([("success", .jb true)], updatePath stored p)

/-- `handleSubmitLeetCodeSolution`: commits and converts the outcome. -/
def handleSubmitLeetCodeSolution (token : String) (cfg : RepoConfig)
    (data : SolutionData) (now : Nat) (cnet : PutRequest → NetOutcome) :
    Response :=
  match (commitSolutionToGithub token cfg data now cnet).1 with
  | .ok result => [("success", .jb true), ("result", .jobj result)]
  | .error msg => [("success", .jb false), ("error", .js msg)]

/-- The response has key `k` bound to a boolean. -/
def hasBoolKey (r : Response) (k : String) : Bool :=
  match r.lookup k with
  | some (JVal.jb _) => true
  | _ => false

/-- The response has key `k` bound to a string. -/
def hasStrKey (r : Response) (k : String) : Bool :=
  match r.lookup k with
  | some (JVal.js _) => true
  | _ => false

/-- The `{success: bool, ...}` shape, with an error string whenever
`success` is false. -/
def successErrorShaped (r : Response) : Bool :=
  hasBoolKey r "success"
    && (!(r.lookup "success" == some (JVal.jb false)) || hasStrKey r "error")

/-- C8 counterexample: the claim says every response of every named
operation is `{success: bool, ...}` or `{success: false, error}`.  The
`check-device-flow` handler, asked while no flow is stored, sends
`{inProgress: false}` — a response with no `success` key at all. -/
theorem checkDeviceFlow_response_lacks_success :
    (handleCheckDeviceFlow none 0).1 = [("inProgress", JVal.jb false)]
    ∧ (handleCheckDeviceFlow none 0).1.lookup "success" = none := by
  exact ⟨rfl, rfl⟩

/-- C8 amended: every handler is total over its oracles — every internal
failure outcome is converted into a response value rather than escaping the
dispatch boundary — and every response is a `{success: bool, ...}` object
carrying an error string when `success` is false, except that
`check-device-flow` responds `{inProgress: bool, ...}` and
`check-auth-status` responds `{isLoggedIn: bool, ...}` with no `success`
field. -/
theorem dispatch_total_and_shaped (store : Option DeviceCodeInfo) (now : Nat)
    (net : Except String DeviceCodeInfo) (token : String)
    (vout : ValidateOutcome) (uinfo : Except String String)
    (rnet : Except String String) (cfg stored : RepoConfig) (p : String)
    (data : SolutionData) (cnet : PutRequest → NetOutcome) :
    successErrorShaped (handleGithubLogin store now net).response = true
    ∧ hasBoolKey (handleCheckDeviceFlow store now).1 "inProgress" = true
    ∧ successErrorShaped (handleCancelDeviceFlow store).1 = true
    ∧ hasBoolKey (handleCheckAuthStatus token vout uinfo) "isLoggedIn" = true
    ∧ successErrorShaped (handleLogout token).1 = true
    ∧ successErrorShaped (handleOpenVerificationPage store) = true
    ∧ successErrorShaped (handleFetchRepositories token rnet) = true
    ∧ successErrorShaped (handleSaveRepoConfig cfg).1 = true
    ∧ successErrorShaped (handleUpdateRepoPath stored p).1 = true
    ∧ successErrorShaped
        (handleSubmitLeetCodeSolution token cfg data now cnet) = true := by
  refine ⟨?_, ?_, rfl, ?_, rfl, ?_, ?_, rfl, rfl, ?_⟩
  · unfold handleGithubLogin
    rcases h : isActive store now with ⟨active, store1⟩
    cases active with
    | true =>
      cases store1
      <;> simp [h, successErrorShaped, hasBoolKey, hasStrKey]
      <;> try rfl
    | false =>
      cases net
      <;> simp [h, successErrorShaped, hasBoolKey, hasStrKey]
      <;> try rfl
  · unfold handleCheckDeviceFlow
    rcases h : isActive store now with ⟨active, store1⟩
    cases active with
    | true => cases store1 <;> simp [h, hasBoolKey] <;> try rfl
    | false => simp [h, hasBoolKey]
  · unfold handleCheckAuthStatus
    by_cases h : (isAuthenticated token vout).1 = true
    · cases uinfo <;> simp [h, hasBoolKey] <;> try rfl
    · simp [h, hasBoolKey]
  · unfold handleOpenVerificationPage
    cases store with
    | none => simp [successErrorShaped, hasBoolKey, hasStrKey] <;> try rfl
    | some info =>
      by_cases h : (info.verification_uri != "") = true
      <;> simp [h, successErrorShaped, hasBoolKey, hasStrKey]
      <;> try rfl
  · unfold handleFetchRepositories
    by_cases h : token = ""
    · simp [h, successErrorShaped, hasBoolKey, hasStrKey]
      try rfl
    · cases rnet
      <;> simp [h, successErrorShaped, hasBoolKey, hasStrKey]
      <;> try rfl
  · unfold handleSubmitLeetCodeSolution
    cases (commitSolutionToGithub token cfg data now cnet).1
    <;> simp [successErrorShaped, hasBoolKey, hasStrKey]
    <;> try rfl

end CodeStudySync
